import Mathlib

/-!
Verification development for the waf_bypass_scraper package
(src/waf_bypass_scraper/{cli,scraper,parsers,formatters}.py).

The Python sources are shallowly embedded: pure string manipulation and
control flow are translated into executable Lean definitions, the external
collaborators (BeautifulSoup's tree queries, `re`, `json.loads`,
`urllib.parse.unquote`, the network fetch layer) are passed in as explicit
function arguments or modelled by small faithful definitions, and Python
exceptions are modelled with an explicit `Except` monad.
-/

namespace WafBypassScraper

/-! ## Python string primitives used by the sources -/

/-- Membership of `pat` as a contiguous substring of `l`
(the semantics of the Python expression `pat in s` for strings). -/
def listHasInfix (pat : List Char) : List Char → Bool
  | [] => pat.isEmpty
  | c :: rest => pat.isPrefixOf (c :: rest) || listHasInfix pat rest

/-- Python `pat in s` for strings. -/
def strContains (s pat : String) : Bool := listHasInfix pat.data s.data

/-- ASCII whitespace characters stripped by Python `str.strip()`.
(The model restricts Python's Unicode whitespace set to its ASCII part:
space, tab, newline, carriage return, vertical tab, form feed.) -/
def pyIsSpace (c : Char) : Bool :=
  c = ' ' || c = Char.ofNat 9 || c = Char.ofNat 10 || c = Char.ofNat 13 ||
  c = Char.ofNat 11 || c = Char.ofNat 12

/-- Python `str.strip()` (restricted to ASCII whitespace). -/
def pyStrip (s : String) : String :=
  String.mk (((s.data.dropWhile pyIsSpace).reverse.dropWhile pyIsSpace).reverse)

/-! ## cli.py: the document-type extraction router -/

namespace Cli

/-- cli.py `is_reddit_url`: `return "reddit.com" in url`. -/
def is_reddit_url (url : String) : Bool := strContains url "reddit.com"

/-- The three extraction targets the spec's router is said to choose among. -/
inductive Route where
  | thread
  | video
  | generic
deriving DecidableEq

/-- cli.py `scrape_url`, lines 56-66: the parser-dispatch decision made after
the document has been fetched.  `html_content` is the fetched document; the
source dispatches with `if is_reddit_url(url): RedditParser ... else:
TrafilaturaParser ...` and never consults `html_content` for the decision.
No branch of the source constructs a `YouTubeParser`. -/
def scrape_route (url : String) (html_content : String) : Route :=
  if is_reddit_url url then Route.thread else Route.generic

end Cli

/-! ## Small models of the `re` substitutions the Reddit parser uses -/

/-- ASCII word characters, the `\w` class of the source's patterns
(Python's `\w` additionally matches non-ASCII word characters; the model
restricts to ASCII). -/
def isWordChar (c : Char) : Bool := c.isAlpha || c.isDigit || c = '_'

/-- Does `l` belong to the language of `\s*:\s*r/\w+\s*` matched to the end?
Used for the end-anchored pattern in `RedditParser._extract_title`. -/
def matchTitleSuffix (l : List Char) : Bool :=
  match l.dropWhile pyIsSpace with
  | ':' :: rest =>
    match rest.dropWhile pyIsSpace with
    | 'r' :: '/' :: r2 =>
      !(r2.takeWhile isWordChar).isEmpty && (r2.dropWhile isWordChar).all pyIsSpace
    | _ => false
  | _ => false

/-- Does `l` belong to the language of `\s*points?` matched to the end?
Used for the end-anchored pattern in `RedditParser._extract_comment_score`. -/
def matchScoreSuffix (l : List Char) : Bool :=
  match l.dropWhile pyIsSpace with
  | ['p', 'o', 'i', 'n', 't'] => true
  | ['p', 'o', 'i', 'n', 't', 's'] => true
  | _ => false

/-- `re.sub(pattern, "", s)` for an end-anchored pattern: delete from the
leftmost position whose suffix matches (characterised by `matchFn`) to the
end of the string; if no position matches, the string is unchanged. -/
def subSuffix (matchFn : List Char → Bool) : List Char → List Char
  | [] => []
  | c :: rest => if matchFn (c :: rest) then [] else c :: subSuffix matchFn rest

/-! ## parsers.py: RedditParser

BeautifulSoup is the external tree library: a parsed element is modelled by
the projections the source reads from it (`get_text(strip=True)`,
`get_text(separator="\n", strip=True)`, the `title` attribute, the `class`
attribute list), and `soup.select_one` / `soup.select` are passed in as
function arguments. -/

namespace RedditParser

/-- A BeautifulSoup element, reduced to the projections the source uses. -/
structure Elem where
  /-- `elem.get_text(strip=True)` -/
  text : String
  /-- `elem.get_text(separator="\n", strip=True)` -/
  textNL : String
  /-- `elem.get("title")` (`none` = attribute absent) -/
  title_attr : Option String
deriving DecidableEq

/-- The shared shape of every field resolver in the source: try
`select_one` on each candidate locator in list order, first hit wins. -/
def selectFirst (find : String → Option Elem) : List String → Option Elem
  | [] => none
  | s :: rest =>
    match find s with
    | some e => some e
    | none => selectFirst find rest

/-- `title_selectors` of `RedditParser._extract_title`. -/
def reddit_title_selectors : List String :=
  ["a.title", "h1", "[slot=\"title\"]", "shreddit-post h1",
   "[data-testid=\"post-title\"]", "p.title a.title"]

/-- `RedditParser._extract_title`.  `find` is `soup.select_one`;
`page_title` is `soup.find("title")` (the fallback locator). -/
def extract_title (find : String → Option Elem) (page_title : Option Elem) : String :=
  match selectFirst find reddit_title_selectors with
  | some e => e.text
  | none =>
    match page_title with
    | some e => String.mk (subSuffix matchTitleSuffix e.text.data)
    | none => "Unknown Title"

/-- `author_selectors` of `RedditParser._extract_author`. -/
def reddit_author_selectors : List String :=
  ["a.author", "[slot=\"authorName\"]", "shreddit-post [slot=\"authorName\"]",
   "a[href*=\"/user/\"]", "p.tagline a.author"]

/-- `RedditParser._extract_author`. -/
def extract_author (find : String → Option Elem) : String :=
  match selectFirst find reddit_author_selectors with
  | some e => e.text.replace "u/" ""
  | none => "Unknown"

/-- `author_selectors` of `RedditParser._extract_comment_author`. -/
def comment_author_selectors : List String :=
  ["a.author", "[slot=\"authorName\"]", "a[href*=\"/user/\"]", "p.tagline a.author"]

/-- `RedditParser._extract_comment_author` (scoped to one comment sub-tree,
whose `select_one` is `find`). -/
def extract_comment_author (find : String → Option Elem) : String :=
  match selectFirst find comment_author_selectors with
  | some e => e.text.replace "u/" ""
  | none => "Unknown"

/-- `text_selectors` of `RedditParser._extract_comment_text`. -/
def comment_text_selectors : List String :=
  ["div.md", "div.usertext-body div.md", "[slot=\"comment\"]",
   "div[data-testid=\"comment-text\"]"]

/-- `RedditParser._extract_comment_text`. -/
def extract_comment_text (find : String → Option Elem) : Option String :=
  (selectFirst find comment_text_selectors).map (fun e => e.textNL)

/-- `score_selectors` of `RedditParser._extract_comment_score`. -/
def comment_score_selectors : List String :=
  ["span.score.unvoted", "span.score", "[slot=\"score\"]", "[data-testid=\"vote-score\"]"]

/-- `RedditParser._extract_comment_score`. -/
def extract_comment_score (find : String → Option Elem) : Option String :=
  (selectFirst find comment_score_selectors).map
    (fun e => String.mk (subSuffix matchScoreSuffix e.text.data))

/-- `time_selectors` of `RedditParser._extract_comment_timestamp`. -/
def comment_time_selectors : List String :=
  ["time", "p.tagline time", "[slot=\"timestamp\"]"]

/-- `RedditParser._extract_comment_timestamp`: the `title` attribute is
preferred when present and truthy, else the element text. -/
def extract_comment_timestamp (find : String → Option Elem) : Option String :=
  (selectFirst find comment_time_selectors).map
    (fun e =>
      match e.title_attr with
      | some t => if t = "" then e.text else t
      | none => e.text)

/-- `RedditComment` dataclass. -/
structure RedditComment where
  author : String
  text : String
  score : Option String
  timestamp : Option String
deriving DecidableEq

/-- A comment container element, as `RedditParser._extract_comments` uses
it: its `class` attribute list, the `select_one` of its sub-tree, and —
because the source guards each container with `try ... except Exception` —
an optional exception that the underlying tree library raises while this
container is processed (`none` for a container that processes normally). -/
structure CommentElem where
  classes : List String
  find : String → Option Elem
  raises : Option String := none

/-- `comment_selectors` of `RedditParser._extract_comments`. -/
def reddit_comment_selectors : List String :=
  ["div.comment", "div.entry", "shreddit-comment", "[data-testid=\"comment\"]",
   "div.Comment"]

/-- The locator loop of `RedditParser._extract_comments`: the first selector
yielding a non-empty list wins; if all yield empty lists the result is the
empty list. -/
def selectElements (select : String → List CommentElem) : List String → List CommentElem
  | [] => []
  | s :: rest =>
    let r := select s
    if r.isEmpty then selectElements select rest else r

/-- Python `repr` of a string with single quotes, written with escapes. -/
def pyRepr (s : String) : String := "\x27" ++ s ++ "\x27"

/-- Python `str` of a list of strings, e.g. `["a","b"]` becomes the text
`[` `\x27a\x27, \x27b\x27` `]`. -/
def pyStrList (l : List String) : String :=
  "[" ++ String.intercalate ", " (l.map pyRepr) ++ "]"

/-- The top-level filter of `RedditParser._extract_comments` (lines
228-237): if the chosen elements are non-empty and some element's class
list, rendered with `str`, contains `"comment"`, keep only the elements
whose class list contains `comment` and not `entry` — unless that filter
would be empty, in which case the original list is kept. -/
def filterTopLevel (elems : List CommentElem) : List CommentElem :=
  if !elems.isEmpty && elems.any (fun e => strContains (pyStrList e.classes) "comment") then
    let filtered := elems.filter
      (fun e => e.classes.contains "comment" && !e.classes.contains "entry")
    if !filtered.isEmpty then filtered else elems
  else elems

/-- The body of the per-comment loop of `RedditParser._extract_comments`:
either the container raises (modelled by `raises`) and the error is
reported, or the fields are resolved and a container with no usable text
(`not text or not text.strip()`) is skipped (`ok none`). -/
def processComment (e : CommentElem) : Except String (Option RedditComment) :=
  match e.raises with
  | some msg => Except.error msg
  | none =>
    let author := extract_comment_author e.find
    match extract_comment_text e.find with
    | none => Except.ok none
    | some text =>
      if text = "" || pyStrip text = "" then Except.ok none
      else
        Except.ok (some
          { author := author
            text := text
            score := extract_comment_score e.find
            timestamp := extract_comment_timestamp e.find })

/-- The warning the source prints for a comment whose processing raises;
`msg` stands for the formatted exception text. -/
def redditWarn (idx : Nat) (msg : String) : String :=
  "Warning: Failed to parse comment #" ++ toString idx ++ ": " ++ msg

/-- The `for idx, comment_elem in enumerate(comment_elements, start=1)` loop:
returns the accumulated comments together with the warnings printed to the
diagnostic channel.  A raising container adds a warning carrying its
position and processing continues with the rest. -/
def processCommentsAux (idx : Nat) : List CommentElem → List RedditComment × List String
  | [] => ([], [])
  | e :: rest =>
    match processComment e with
    | Except.error msg =>
      let r := processCommentsAux (idx + 1) rest
      (r.1, redditWarn idx msg :: r.2)
    | Except.ok none => processCommentsAux (idx + 1) rest
    | Except.ok (some c) =>
      let r := processCommentsAux (idx + 1) rest
      (c :: r.1, r.2)

/-- `RedditParser._extract_comments`: locate the containers, filter to
top-level ones, then process each with per-item failure isolation. -/
def extract_comments (select : String → List CommentElem) : List RedditComment × List String :=
  processCommentsAux 1 (filterTopLevel (selectElements select reddit_comment_selectors))

end RedditParser

/-! ## A JSON value model with the Python semantics the YouTube parser relies on

`ytInitialData` is an arbitrary decoded JSON value; the YouTube extractors
walk it with `dict.get`, subscripting, `in`, iteration and slicing, all
wrapped in `try/except` clauses listing specific exception classes.  The
embedding models the JSON value, those primitives and the exceptions
explicitly (JSON numbers are modelled as integers). -/

/-- A decoded JSON value. -/
inductive JVal where
  | null
  | bool (b : Bool)
  | num (n : Int)
  | str (s : String)
  | arr (items : List JVal)
  | obj (fields : List (String × JVal))

/-- The Python exceptions the sources raise or catch. -/
inductive PyErr where
  | valueError (msg : String)
  | attributeError
  | keyError
  | indexError
  | typeError
deriving DecidableEq

/-- Python falsiness of a JSON value (`not x`). -/
def JVal.falsy : JVal → Bool
  | .null => true
  | .bool b => !b
  | .num n => n = 0
  | .str s => s = ""
  | .arr items => items.isEmpty
  | .obj fields => fields.isEmpty

/-- Python `x.get(k, dflt)`: defined for dicts, `AttributeError` otherwise. -/
def pyGetD (j : JVal) (k : String) (dflt : JVal) : Except PyErr JVal :=
  match j with
  | .obj fields => Except.ok ((fields.lookup k).getD dflt)
  | _ => Except.error PyErr.attributeError

/-- Python `x[k]` for a string key: dict lookup (`KeyError` when absent);
subscripting a list or string by a string, or anything else, is `TypeError`. -/
def pySubscriptStr (j : JVal) (k : String) : Except PyErr JVal :=
  match j with
  | .obj fields =>
    match fields.lookup k with
    | some v => Except.ok v
    | none => Except.error PyErr.keyError
  | _ => Except.error PyErr.typeError

/-- Python `x[i]` for a natural index: list element or one-character string
(`IndexError` out of range); a dict raises `KeyError` (JSON keys are
strings, so an integer is never a key); anything else is `TypeError`. -/
def pySubscriptNat (j : JVal) (i : Nat) : Except PyErr JVal :=
  match j with
  | .arr items =>
    match items.get? i with
    | some v => Except.ok v
    | none => Except.error PyErr.indexError
  | .str s =>
    match s.data.get? i with
    | some c => Except.ok (JVal.str (String.mk [c]))
    | none => Except.error PyErr.indexError
  | .obj _ => Except.error PyErr.keyError
  | _ => Except.error PyErr.typeError

/-- Python `k in x` for a string `k`: key membership for dicts, substring
for strings, element equality for lists, `TypeError` otherwise. -/
def pyIn (k : String) (j : JVal) : Except PyErr Bool :=
  match j with
  | .obj fields => Except.ok (fields.any (fun kv => kv.1 = k))
  | .str s => Except.ok (strContains s k)
  | .arr items =>
    Except.ok (items.any (fun v =>
      match v with
      | JVal.str s => s = k
      | _ => false))
  | _ => Except.error PyErr.typeError

/-- Python `for x in j`: lists yield elements, dicts yield their keys,
strings yield one-character strings, anything else is `TypeError`. -/
def pyIterate (j : JVal) : Except PyErr (List JVal) :=
  match j with
  | .arr items => Except.ok items
  | .obj fields => Except.ok (fields.map (fun kv => JVal.str kv.1))
  | .str s => Except.ok (s.data.map (fun c => JVal.str (String.mk [c])))
  | _ => Except.error PyErr.typeError

/-- A `try/except (...)` boundary: errors satisfying `caught` are replaced
by the default, others propagate. -/
def pyCatch (caught : PyErr → Bool) (dflt : α) (x : Except PyErr α) : Except PyErr α :=
  match x with
  | Except.ok v => Except.ok v
  | Except.error e => if caught e then Except.ok dflt else Except.error e

/-- `except (AttributeError, KeyError, TypeError)`. -/
def catchAKT : PyErr → Bool
  | PyErr.attributeError => true
  | PyErr.keyError => true
  | PyErr.typeError => true
  | _ => false

/-- `except (KeyError, IndexError, TypeError)` — note: no `AttributeError`. -/
def catchKIT : PyErr → Bool
  | PyErr.keyError => true
  | PyErr.indexError => true
  | PyErr.typeError => true
  | _ => false

/-- `except (AttributeError, KeyError, IndexError, TypeError)`. -/
def catchAll4 : PyErr → Bool
  | PyErr.valueError _ => false
  | _ => true

/-- Python int-like coercion for arithmetic and slice indices
(`bool` is an `int` in Python). -/
def toIntLike : JVal → Option Int
  | JVal.num n => some n
  | JVal.bool b => some (if b then 1 else 0)
  | _ => none

/-- Python `a + b` on JSON values: integer addition (with bools as ints),
string and list concatenation; any other combination is `TypeError`. -/
def pyAdd (a b : JVal) : Except PyErr JVal :=
  match toIntLike a, toIntLike b with
  | some x, some y => Except.ok (JVal.num (x + y))
  | _, _ =>
    match a, b with
    | JVal.str x, JVal.str y => Except.ok (JVal.str (x ++ y))
    | JVal.arr x, JVal.arr y => Except.ok (JVal.arr (x ++ y))
    | _, _ => Except.error PyErr.typeError

/-- Python slice `l[a:b]` index normalisation over a list. -/
def pySlice (l : List α) (a b : Int) : List α :=
  let n : Int := l.length
  let a2 := if a < 0 then max (a + n) 0 else min a n
  let b2 := if b < 0 then max (b + n) 0 else min b n
  if a2 < b2 then (l.take b2.toNat).drop a2.toNat else []

/-- Python `j[a:b]`: strings and lists slice; slice indices must be
int-like and the sliced value sliceable, else `TypeError`. -/
def pySliceJ (j : JVal) (a b : JVal) : Except PyErr JVal :=
  match toIntLike a, toIntLike b with
  | some x, some y =>
    match j with
    | JVal.str s => Except.ok (JVal.str (String.mk (pySlice s.data x y)))
    | JVal.arr items => Except.ok (JVal.arr (pySlice items x y))
    | _ => Except.error PyErr.typeError
  | _, _ => Except.error PyErr.typeError

/-! ## parsers.py: YouTubeParser -/

namespace YouTubeParser

/-- Characters of the video-id class `[0-9A-Za-z_-]`. -/
def isVidChar (c : Char) : Bool := c.isAlpha || c.isDigit || c = '_' || c = '-'

/-- Eleven id-class characters starting `l`, when present. -/
def vidTake (l : List Char) : Option (List Char) :=
  let v := l.takeWhile isVidChar
  if v.length ≥ 11 then some (v.take 11) else none

/-- One attempt of the pattern `(?:v=|/)([0-9A-Za-z_-]{11}).*` at a fixed
position: the alternation prefix, then exactly eleven id characters
(the trailing `.*` constrains nothing). -/
def vidAt (l : List Char) : Option (List Char) :=
  match l with
  | 'v' :: '=' :: rest => vidTake rest
  | '/' :: rest => vidTake rest
  | _ => none

/-- `re.search` of the first id pattern: leftmost matching position wins. -/
def searchVid1 : List Char → Option (List Char)
  | [] => none
  | c :: rest =>
    match vidAt (c :: rest) with
    | some v => some v
    | none => searchVid1 rest

/-- One attempt of a literal-prefixed id pattern (`youtu\.be/(...)`,
`embed/(...)`) at a fixed position. -/
def vidAfterLit (lit : List Char) (l : List Char) : Option (List Char) :=
  if lit.isPrefixOf l then vidTake (l.drop lit.length) else none

/-- `re.search` of a literal-prefixed id pattern. -/
def searchVidLit (lit : List Char) : List Char → Option (List Char)
  | [] => none
  | c :: rest =>
    match vidAfterLit lit (c :: rest) with
    | some v => some v
    | none => searchVidLit lit rest

/-- `YouTubeParser._extract_video_id`: try the three fixed patterns in
order; no match raises `ValueError`. -/
def extract_video_id (url : String) : Except PyErr String :=
  match searchVid1 url.data with
  | some v => Except.ok (String.mk v)
  | none =>
    match searchVidLit "youtu.be/".data url.data with
    | some v => Except.ok (String.mk v)
    | none =>
      match searchVidLit "embed/".data url.data with
      | some v => Except.ok (String.mk v)
      | none =>
        Except.error (PyErr.valueError ("Could not extract video ID from URL: " ++ url))

/-- Hexadecimal digit value. -/
def hexVal (c : Char) : Option Nat :=
  if c.isDigit then some (c.toNat - 48)
  else if 'a' ≤ c && c ≤ 'f' then some (c.toNat - 87)
  else if 'A' ≤ c && c ≤ 'F' then some (c.toNat - 55)
  else none

/-- Percent-decoding on the character list.  Models
`urllib.parse.unquote` for single-byte (ASCII) escapes; an invalid escape
is left verbatim, as `unquote` does. -/
def unquoteList : List Char → List Char
  | [] => []
  | '%' :: a :: b :: rest =>
    match hexVal a, hexVal b with
    | some x, some y => Char.ofNat (16 * x + y) :: unquoteList rest
    | _, _ => '%' :: unquoteList (a :: b :: rest)
  | c :: rest => c :: unquoteList rest

/-- `urllib.parse.unquote` (ASCII fragment). -/
def unquote (s : String) : String := String.mk (unquoteList s.data)

/-- `re.search` of `[?&]q=([^&]+)`: the leftmost `?`/`&` followed by `q=`
and at least one non-`&` character; the group is the maximal run of
non-`&` characters. -/
def findQ : List Char → Option (List Char)
  | [] => none
  | c :: rest =>
    if c = '?' || c = '&' then
      match rest with
      | 'q' :: '=' :: r2 =>
        let v := r2.takeWhile (fun d => d ≠ '&')
        if v.isEmpty then findQ rest else some v
      | _ => findQ rest
    else findQ rest

/-- Class `[\d,KMB]` of the like-count pattern, case-insensitive. -/
def isLikeClassChar (c : Char) : Bool :=
  c.isDigit || c = ',' || c.toLower = 'k' || c.toLower = 'm' || c.toLower = 'b'

/-- Does `\s*like` (case-insensitive) match a prefix of `l`?  The greedy
whitespace run needs no backtracking: the literal that follows it starts
with a non-whitespace character. -/
def likeTail (l : List Char) : Bool :=
  ((l.dropWhile pyIsSpace).take 4).map Char.toLower = ['l', 'i', 'k', 'e']

/-- Backtracking of the greedy group `([\d,KMB]+)`: try `j` characters of
`l`, longest first, until `\s*like` matches what follows. -/
def likeShrink (l : List Char) : Nat → Option (List Char)
  | 0 => none
  | j + 1 =>
    if likeTail (l.drop (j + 1)) then some (l.take (j + 1)) else likeShrink l j

/-- `re.search(r"([\d,KMB]+)\s*like", label, re.IGNORECASE)`:
leftmost position wins; the returned value is group 1. -/
def searchLike : List Char → Option (List Char)
  | [] => none
  | c :: rest =>
    let run := (c :: rest).takeWhile isLikeClassChar
    match likeShrink (c :: rest) run.length with
    | some g => some g
    | none => searchLike rest

/-- `re.search` of the like pattern over a JSON value: `TypeError` unless
the value is a string (as `re.search` on a non-string raises). -/
def pyReSearchLike (j : JVal) : Except PyErr (Option String) :=
  match j with
  | JVal.str s => Except.ok ((searchLike s.data).map String.mk)
  | _ => Except.error PyErr.typeError

/-- `re.search` of the `q`-parameter pattern over a JSON value. -/
def pyReSearchQ (j : JVal) : Except PyErr (Option String) :=
  match j with
  | JVal.str s => Except.ok ((findQ s.data).map String.mk)
  | _ => Except.error PyErr.typeError

/-- `url.startswith("/")`: `AttributeError` on a non-string. -/
def pyStartsWithSlash (j : JVal) : Except PyErr Bool :=
  match j with
  | JVal.str s => Except.ok (['/'].isPrefixOf s.data)
  | _ => Except.error PyErr.attributeError

/-- The shared walk
`yt.get("contents", \x7b\x7d).get("twoColumnWatchNextResults", \x7b\x7d).get("results", \x7b\x7d).get("results", \x7b\x7d).get("contents", [])`
that opens every graph extractor of the class. -/
def ytContents (yt : JVal) : Except PyErr JVal := do
  let a ← pyGetD yt "contents" (JVal.obj [])
  let b ← pyGetD a "twoColumnWatchNextResults" (JVal.obj [])
  let c ← pyGetD b "results" (JVal.obj [])
  let d ← pyGetD c "results" (JVal.obj [])
  pyGetD d "contents" (JVal.arr [])

/-- The renderer-scan loop of `YouTubeParser._get_video_details`:
`for item in contents: if key in item: return item[key]`, defaulting to an
empty dict. -/
def findRendererLoop (key : String) : List JVal → Except PyErr JVal
  | [] => Except.ok (JVal.obj [])
  | item :: rest => do
    let b ← pyIn key item
    if b then pySubscriptStr item key else findRendererLoop key rest

/-- `YouTubeParser._get_video_details`. -/
def get_video_details (yt : JVal) : Except PyErr JVal :=
  pyCatch catchAKT (JVal.obj []) (do
    let contents ← ytContents yt
    let items ← pyIterate contents
    findRendererLoop "videoPrimaryInfoRenderer" items)

/-- `YouTubeParser._extract_title`.  The `except` clause lists only
`KeyError, IndexError, TypeError`; an `AttributeError` (a `.get` on a
non-dict) propagates out of the function. -/
def extract_title (vd : JVal) : Except PyErr JVal :=
  pyCatch catchKIT (JVal.str "Unknown Title") (do
    let t ← pyGetD vd "title" (JVal.obj [])
    let runs ← pyGetD t "runs" (JVal.arr [])
    if runs.falsy then pure (JVal.str "Unknown Title")
    else do
      let r0 ← pySubscriptNat runs 0
      pyGetD r0 "text" (JVal.str "Unknown Title"))

/-- The item loop of `YouTubeParser._extract_channel_name`: the first
secondary-info renderer with truthy `runs` wins; a secondary-info renderer
with falsy `runs` does not stop the scan. -/
def channelLoop : List JVal → Except PyErr JVal
  | [] => Except.ok (JVal.str "Unknown Channel")
  | item :: rest => do
    let b ← pyIn "videoSecondaryInfoRenderer" item
    if b then do
      let sec ← pySubscriptStr item "videoSecondaryInfoRenderer"
      let owner ← pyGetD sec "owner" (JVal.obj [])
      let vor ← pyGetD owner "videoOwnerRenderer" (JVal.obj [])
      let t ← pyGetD vor "title" (JVal.obj [])
      let runs ← pyGetD t "runs" (JVal.arr [])
      if runs.falsy then channelLoop rest
      else do
        let r0 ← pySubscriptNat runs 0
        pyGetD r0 "text" (JVal.str "Unknown Channel")
    else channelLoop rest

/-- `YouTubeParser._extract_channel_name`. -/
def extract_channel_name (yt : JVal) : Except PyErr JVal :=
  pyCatch catchAll4 (JVal.str "Unknown Channel") (do
    let contents ← ytContents yt
    let items ← pyIterate contents
    channelLoop items)

/-- The item loop of `YouTubeParser._extract_description`: the first
secondary-info renderer wins unconditionally. -/
def descLoop : List JVal → Except PyErr JVal
  | [] => Except.ok (JVal.str "")
  | item :: rest => do
    let b ← pyIn "videoSecondaryInfoRenderer" item
    if b then do
      let sec ← pySubscriptStr item "videoSecondaryInfoRenderer"
      let ad ← pyGetD sec "attributedDescription" (JVal.obj [])
      pyGetD ad "content" (JVal.str "")
    else descLoop rest

/-- `YouTubeParser._extract_description`. -/
def extract_description (yt : JVal) : Except PyErr JVal :=
  pyCatch catchAKT (JVal.str "") (do
    let contents ← ytContents yt
    let items ← pyIterate contents
    descLoop items)

/-- A `text`/`url` entry of `description_links`.  The source appends
whatever values the run produced, so the text field is a JSON value; the
url field is likewise kept as produced. -/
structure YtLink where
  text : JVal
  url : JVal

/-- The redirect-unwrapping block of `_extract_description_links`:
a url containing `/redirect?` or `youtube.com/redirect` has its
`q` parameter percent-decoded when present; otherwise a url starting with
`/` is prefixed with the site origin.  The two `in` probes, the regex and
`startswith` carry their Python typing behaviour. -/
def resolveUrlJ (url : JVal) : Except PyErr JVal := do
  let b1 ← pyIn "/redirect?" url
  let b ← if b1 then pure true else pyIn "youtube.com/redirect" url
  if b then do
    let m ← pyReSearchQ url
    match m with
    | some q => pure (JVal.str (unquote q))
    | none => pure url
  else do
    let sw ← pyStartsWithSlash url
    if sw then
      match url with
      | JVal.str s => pure (JVal.str ("https://www.youtube.com" ++ s))
      | _ => Except.error PyErr.attributeError
    else pure url

/-- The `for run in command_runs` loop of `_extract_description_links`:
slice the description text at the run's offsets, extract and resolve the
target url, drop the run when the raw url is falsy, and substitute the url
for a falsy link text. -/
def runLoop (descText : JVal) : List JVal → Except PyErr (List YtLink)
  | [] => Except.ok []
  | run :: rest => do
    let startIdx ← pyGetD run "startIndex" (JVal.num 0)
    let length ← pyGetD run "length" (JVal.num 0)
    let linkText ←
      if descText.falsy then pure (JVal.str "")
      else do
        let e ← pyAdd startIdx length
        pySliceJ descText startIdx e
    let onTap ← pyGetD run "onTap" (JVal.obj [])
    let itc ← pyGetD onTap "innertubeCommand" (JVal.obj [])
    let uep ← pyGetD itc "urlEndpoint" (JVal.obj [])
    let url0 ← pyGetD uep "url" (JVal.str "")
    if url0.falsy then runLoop descText rest
    else do
      let url1 ← resolveUrlJ url0
      let text1 := if linkText.falsy then url1 else linkText
      let more ← runLoop descText rest
      pure ({ text := text1, url := url1 } :: more)

/-- The item loop of `_extract_description_links`: every secondary-info
renderer contributes its command runs, in order. -/
def linksLoop : List JVal → Except PyErr (List YtLink)
  | [] => Except.ok []
  | item :: rest => do
    let b ← pyIn "videoSecondaryInfoRenderer" item
    if b then do
      let sec ← pySubscriptStr item "videoSecondaryInfoRenderer"
      let ad ← pyGetD sec "attributedDescription" (JVal.obj [])
      let cruns ← pyGetD ad "commandRuns" (JVal.arr [])
      let descText ← pyGetD ad "content" (JVal.str "")
      let runItems ← pyIterate cruns
      let links ← runLoop descText runItems
      let more ← linksLoop rest
      pure (links ++ more)
    else linksLoop rest

/-- `YouTubeParser._extract_description_links`. -/
def extract_description_links (yt : JVal) : Except PyErr (List YtLink) :=
  pyCatch catchAll4 [] (do
    let contents ← ytContents yt
    let items ← pyIterate contents
    linksLoop items)

/-- `YouTubeParser._extract_view_count`. -/
def extract_view_count (vd : JVal) : Except PyErr JVal :=
  pyCatch catchAKT JVal.null (do
    let a ← pyGetD vd "viewCount" (JVal.obj [])
    let b ← pyGetD a "videoViewCountRenderer" (JVal.obj [])
    let c ← pyGetD b "viewCount" (JVal.obj [])
    pyGetD c "simpleText" JVal.null)

/-- `YouTubeParser._extract_upload_date`. -/
def extract_upload_date (vd : JVal) : Except PyErr JVal :=
  pyCatch catchAKT JVal.null (do
    let a ← pyGetD vd "dateText" (JVal.obj [])
    pyGetD a "simpleText" JVal.null)

/-- The button loop of `YouTubeParser._extract_like_count`. -/
def likeButtons : List JVal → Except PyErr (Option String)
  | [] => Except.ok none
  | button :: rest => do
    let b ← pyIn "segmentedLikeDislikeButtonRenderer" button
    if b then do
      let sl ← pySubscriptStr button "segmentedLikeDislikeButtonRenderer"
      let lb ← pyGetD sl "likeButton" (JVal.obj [])
      let tbr ← pyGetD lb "toggleButtonRenderer" (JVal.obj [])
      let d1 ← pyGetD tbr "defaultText" (JVal.obj [])
      let d2 ← pyGetD d1 "accessibility" (JVal.obj [])
      let d3 ← pyGetD d2 "accessibilityData" (JVal.obj [])
      let label ← pyGetD d3 "label" (JVal.str "")
      if label.falsy then likeButtons rest
      else do
        let m ← pyReSearchLike label
        match m with
        | some g => pure (some g)
        | none => likeButtons rest
    else likeButtons rest

/-- The item loop of `YouTubeParser._extract_like_count`. -/
def likeItems : List JVal → Except PyErr (Option String)
  | [] => Except.ok none
  | item :: rest => do
    let b ← pyIn "videoPrimaryInfoRenderer" item
    if b then do
      let p ← pySubscriptStr item "videoPrimaryInfoRenderer"
      let va ← pyGetD p "videoActions" (JVal.obj [])
      let mr ← pyGetD va "menuRenderer" (JVal.obj [])
      let tlb ← pyGetD mr "topLevelButtons" (JVal.arr [])
      let buttons ← pyIterate tlb
      let r ← likeButtons buttons
      match r with
      | some g => pure (some g)
      | none => likeItems rest
    else likeItems rest

/-- `YouTubeParser._extract_like_count`. -/
def extract_like_count (yt : JVal) : Except PyErr JVal :=
  pyCatch catchAll4 JVal.null (do
    let contents ← ytContents yt
    let items ← pyIterate contents
    let r ← likeItems items
    pure (match r with
          | some g => JVal.str g
          | none => JVal.null))

/-- `YouTubeComment` dataclass, with string-typed payload fields as the
spec's data model declares them. -/
structure YouTubeComment where
  author : String
  text : String
  likes : Option String
  timestamp : Option String
  is_pinned : Bool := false
  is_hearted : Bool := false
deriving DecidableEq

/-- `YouTubeVideo` dataclass.  The graph-walked fields hold whatever JSON
value the extractor produced. -/
structure YouTubeVideo where
  title : JVal
  channel_name : JVal
  description : JVal
  description_links : List YtLink
  view_count : JVal
  upload_date : JVal
  like_count : JVal
  video_id : String
  url : String
  comments : Option (List YouTubeComment) := none
  comments_truncated : Bool := false

/-- `YouTubeParser._extract_initial_data`: `blob` is the text captured by
the `var ytInitialData = (...);` regex scan (`none` when the pattern does
not occur in the page), `decode` is `json.loads` (`none` = decode error).
The result pairs `self.yt_initial_data` with the warnings printed. -/
def extract_initial_data (blob : Option String) (decode : String → Option JVal) :
    Option JVal × List String :=
  match blob with
  | none => (none, ["Warning: Could not find ytInitialData in HTML"])
  | some raw =>
    match decode raw with
    | some j => (some j, [])
    | none => (none, ["Warning: Failed to parse ytInitialData"])

/-- `YouTubeParser.parse_video` with the default `include_comments=False`
(the comment-fetching arm is modelled separately by
`extract_comments_api`): a missing or falsy `yt_initial_data` raises
`ValueError`, then the video id is extracted from the url, then each field
is extracted from the graph. -/
def parse_video (yt : Option JVal) (url : String) : Except PyErr YouTubeVideo := do
  let data ←
    match yt with
    | none => Except.error (PyErr.valueError "Failed to extract YouTube data from page")
    | some j =>
      if j.falsy then Except.error (PyErr.valueError "Failed to extract YouTube data from page")
      else Except.ok j
  let video_id ← extract_video_id url
  let vd ← get_video_details data
  let title ← extract_title vd
  let channel_name ← extract_channel_name data
  let description ← extract_description data
  let description_links ← extract_description_links data
  let view_count ← extract_view_count vd
  let upload_date ← extract_upload_date vd
  let like_count ← extract_like_count data
  pure
    { title := title
      channel_name := channel_name
      description := description
      description_links := description_links
      view_count := view_count
      upload_date := upload_date
      like_count := like_count
      video_id := video_id
      url := url
      comments := none
      comments_truncated := false }

/-- The per-candidate payload fields `YouTubeParser._parse_comment_thread`
reads from one entity mutation, with the string-typed shapes the API
schema gives them: `author.displayName`, `properties.content.content`,
`properties.publishedTime`, `toolbar.likeCountNotliked`,
`toolbar.likeCountLiked`, and presence of the `heartActiveTooltip` key. -/
structure CommentData where
  displayName : Option String
  content : Option String
  publishedTime : Option String
  likeCountNotliked : Option String
  likeCountLiked : Option String
  heartActive : Bool
deriving DecidableEq

/-- `YouTubeParser._parse_comment_thread`: a candidate with falsy text is
rejected (`return None`); the text is used exactly as the payload carries
it, with no whitespace stripping. -/
def parse_comment_thread (d : CommentData) : Option YouTubeComment :=
  let author_name := d.displayName.getD "Unknown"
  let text := d.content.getD ""
  let like_count :=
    match d.likeCountNotliked with
    | some v => some v
    | none => d.likeCountLiked
  if text = "" then none
  else
    some
      { author := author_name
        text := text
        likes := like_count
        timestamp := d.publishedTime
        is_pinned := false
        is_hearted := d.heartActive }

/-- The accumulation loop of `YouTubeParser._extract_comments`: skip
candidates that fail to parse; stop with the truncation flag, excluding
the overflowing candidate, as soon as a candidate's text length added to
the running total strictly exceeds the budget. -/
def commentsLoop (char_limit : Nat) (total : Nat) :
    List CommentData → List YouTubeComment × Bool
  | [] => ([], false)
  | d :: rest =>
    match parse_comment_thread d with
    | none => commentsLoop char_limit total rest
    | some c =>
      if total + c.text.length > char_limit then ([], true)
      else
        let r := commentsLoop char_limit (total + c.text.length) rest
        (c :: r.1, r.2)

/-- The tail of `YouTubeParser._extract_comments`:
`return comments if comments else None, truncated`. -/
def extract_comments (char_limit : Nat) (threads : List CommentData) :
    Option (List YouTubeComment) × Bool :=
  let r := commentsLoop char_limit 0 threads
  (if r.1.isEmpty then none else some r.1, r.2)

/-- The outcomes of the set-up phase of `YouTubeParser._extract_comments`:
no scraper collaborator, no continuation token found in the graph, the
comments API call failing or returning a falsy payload, or a decoded page
of candidate entity mutations (`_extract_comment_threads`). -/
inductive CommentsFetch where
  | noScraper
  | noToken
  | fetchFailed
  | page (threads : List CommentData)

/-- `YouTubeParser._extract_comments` end to end: every unavailable-fetch
outcome returns `(None, False)`; a fetched page runs the budgeted
accumulation loop. -/
def extract_comments_api (fetch : CommentsFetch) (char_limit : Nat) :
    Option (List YouTubeComment) × Bool :=
  match fetch with
  | CommentsFetch.noScraper => (none, false)
  | CommentsFetch.noToken => (none, false)
  | CommentsFetch.fetchFailed => (none, false)
  | CommentsFetch.page threads => extract_comments char_limit threads

/-- Total text length of a list of comments, the measure the character
budget of `_extract_comments` is compared against. -/
def textLenSum (cs : List YouTubeComment) : Nat :=
  (cs.map (fun c => c.text.length)).sum

end YouTubeParser

/-! ## Concrete instances used by the claim theorems and witnesses -/

/-- A truthy `ytInitialData` with none of the walked fields present. -/
def benignBlob : JVal := JVal.obj [("responseContext", JVal.obj [])]

/-- A `ytInitialData` whose primary-info renderer is the (non-dict) JSON
number `0`. -/
def badPrimaryBlob : JVal :=
  JVal.obj
    [("contents",
      JVal.obj
        [("twoColumnWatchNextResults",
          JVal.obj
            [("results",
              JVal.obj
                [("results",
                  JVal.obj
                    [("contents",
                      JVal.arr [JVal.obj [("videoPrimaryInfoRenderer", JVal.num 0)]])])])])])]

/-- Comment candidate with the given text and no other payload fields. -/
def mkCandidate (t : String) : YouTubeParser.CommentData :=
  { displayName := none
    content := some t
    publishedTime := none
    likeCountNotliked := none
    likeCountLiked := none
    heartActive := false }

/-- The spec scenario: three candidate comments of text length 40 each. -/
def c2demo : List YouTubeParser.CommentData :=
  [mkCandidate (String.mk (List.replicate 40 'a')),
   mkCandidate (String.mk (List.replicate 40 'b')),
   mkCandidate (String.mk (List.replicate 40 'c'))]

/-- A `select_one` function under which the second title locator (`h1`)
matches and a later one (`p.title a.title`) would also match. -/
def c7find : String → Option RedditParser.Elem := fun s =>
  if s = "h1" then some { text := "T1", textNL := "T1", title_attr := none }
  else if s = "p.title a.title" then some { text := "T2", textNL := "T2", title_attr := none }
  else none

/-- A comment container whose text resolves to `"hello"`. -/
def c6goodElem : RedditParser.CommentElem :=
  { classes := ["comment"]
    find := fun s =>
      if s = "div.md" then some { text := "hello", textNL := "hello", title_attr := none }
      else none
    raises := none }

/-- A comment container whose processing raises. -/
def c6badElem : RedditParser.CommentElem :=
  { classes := ["comment"]
    find := fun _ => none
    raises := some "ValueError: boom" }

/-- A top-level comment container (class `comment` only). -/
def c9top : RedditParser.CommentElem :=
  { classes := ["comment"], find := fun _ => none, raises := none }

/-- A nested comment container (classes `comment` and `entry`). -/
def c9nested : RedditParser.CommentElem :=
  { classes := ["comment", "entry"], find := fun _ => none, raises := none }

/-- A description command run whose target url is `https://x`. -/
def c8run : JVal :=
  JVal.obj
    [("onTap",
      JVal.obj
        [("innertubeCommand",
          JVal.obj [("urlEndpoint", JVal.obj [("url", JVal.str "https://x")])])])]

/-! ## Helper lemmas about the resolver loops -/

/-- A field resolver returns the first structurally matching candidate:
if every earlier candidate fails and candidate `i` matches, the result is
candidate `i`'s element, whatever the later candidates would do. -/
theorem selectFirst_first_match (find : String → Option RedditParser.Elem) :
    ∀ (sels : List String) (i : Nat) (hi : i < sels.length) (e : RedditParser.Elem),
      (∀ j (hj : j < i), find (sels.get ⟨j, Nat.lt_trans hj hi⟩) = none) →
      find (sels.get ⟨i, hi⟩) = some e →
      RedditParser.selectFirst find sels = some e := by
  intro sels
  induction sels with
  | nil => intro i hi; exact absurd hi (Nat.not_lt_zero i)
  | cons s rest ih =>
    intro i hi e hprev hmatch
    cases i with
    | zero =>
      have h : find s = some e := hmatch
      simp [RedditParser.selectFirst, h]
    | succ n =>
      have h0 : find s = none := hprev 0 (Nat.succ_pos n)
      have hrec := ih n (Nat.lt_of_succ_lt_succ hi) e
        (fun j hj => hprev (j + 1) (Nat.succ_lt_succ hj)) hmatch
      simp [RedditParser.selectFirst, h0, hrec]

/-- A field resolver on which every candidate fails returns `none`. -/
theorem selectFirst_eq_none (find : String → Option RedditParser.Elem) :
    ∀ sels : List String, (∀ s ∈ sels, find s = none) →
      RedditParser.selectFirst find sels = none := by
  intro sels
  induction sels with
  | nil => intro _; rfl
  | cons s rest ih =>
    intro h
    have h0 : find s = none := h s (List.mem_cons_self s rest)
    simp [RedditParser.selectFirst, h0]
    exact ih (fun t ht => h t (List.mem_cons_of_mem s ht))

/-- The comment-container enumeration uses the first locator that yields
any elements, whatever the later locators would yield. -/
theorem selectElements_first_nonempty (select : String → List RedditParser.CommentElem) :
    ∀ (sels : List String) (i : Nat) (hi : i < sels.length),
      (∀ j (hj : j < i), select (sels.get ⟨j, Nat.lt_trans hj hi⟩) = []) →
      select (sels.get ⟨i, hi⟩) ≠ [] →
      RedditParser.selectElements select sels = select (sels.get ⟨i, hi⟩) := by
  intro sels
  induction sels with
  | nil => intro i hi; exact absurd hi (Nat.not_lt_zero i)
  | cons s rest ih =>
    intro i hi hprev hmatch
    cases i with
    | zero =>
      cases hr : select s with
      | nil => exact absurd hr hmatch
      | cons x xs => simp [RedditParser.selectElements, hr]
    | succ n =>
      have h0 : select s = [] := hprev 0 (Nat.succ_pos n)
      have hrec := ih n (Nat.lt_of_succ_lt_succ hi)
        (fun j hj => hprev (j + 1) (Nat.succ_lt_succ hj)) hmatch
      simp [RedditParser.selectElements, h0]
      exact hrec

/-! ## Claim C1 — the document-type extraction router -/

/-- Claim C1 as frozen is false on the code: this URL contains the
video-site marker (`youtube.com`) yet `scrape_url` routes it to the
external generic extractor, not to the Video Record Extractor (no branch
of `cli.scrape_url` constructs a `YouTubeParser`). -/
theorem C1_counterexample :
    strContains "https://www.youtube.com/watch?v=dQw4w9WgXcQ" "youtube.com" = true ∧
    Cli.is_reddit_url "https://www.youtube.com/watch?v=dQw4w9WgXcQ" = false ∧
    Cli.scrape_route "https://www.youtube.com/watch?v=dQw4w9WgXcQ" "<html></html>" =
      Cli.Route.generic ∧
    Cli.Route.generic ≠ Cli.Route.video :=
  ⟨rfl, rfl, rfl, by decide⟩

/-- Claim C1, amended: extraction dispatch is decided solely by
host-pattern matching on the URL string — a URL containing the thread-site
marker `reddit.com` is routed to the Thread Extractor and every other URL,
video-site URLs included, is routed to the external generic extractor; the
Video Record Extractor is unreachable from the router, and the document's
content is never inspected (the route is independent of it). -/
theorem C1_router_amended (url h1 h2 : String) :
    Cli.scrape_route url h1 = Cli.scrape_route url h2 ∧
    (Cli.scrape_route url h1 = Cli.Route.thread ↔ Cli.is_reddit_url url = true) ∧
    (Cli.scrape_route url h1 = Cli.Route.generic ↔ Cli.is_reddit_url url = false) ∧
    Cli.scrape_route url h1 ≠ Cli.Route.video := by
  cases h : Cli.is_reddit_url url <;> simp [Cli.scrape_route, h]

/-- Witness for C1: a thread-site URL is routed to the Thread Extractor,
and the route does not change with the document. -/
theorem C1_witness :
    Cli.scrape_route "https://www.reddit.com/r/LocalLLaMA/comments/1" "<doc1>" =
      Cli.Route.thread ∧
    Cli.scrape_route "https://www.reddit.com/r/LocalLLaMA/comments/1" "<doc1>" =
      Cli.scrape_route "https://www.reddit.com/r/LocalLLaMA/comments/1" "<doc2>" :=
  ⟨((C1_router_amended "https://www.reddit.com/r/LocalLLaMA/comments/1" "<doc1>" "<doc2>").2.1).mpr
      rfl,
   (C1_router_amended "https://www.reddit.com/r/LocalLLaMA/comments/1" "<doc1>" "<doc2>").1⟩

/-! ## Claim C7 — the selector-fallback field resolver -/

/-- Claim C7: candidates are tried strictly in list order against the
given root; the first structurally matching candidate's value is returned
even if a later candidate would also match; and with no match across all
candidates the resolver yields the declared default — `"Unknown"` for the
author, `"Unknown Title"` for the title (whose final fallback locator, the
page `title` element, is also absent) — and, being a total function, never
raises. -/
theorem C7_resolver_order :
    (∀ (find : String → Option RedditParser.Elem) (sels : List String) (i : Nat)
        (hi : i < sels.length) (e : RedditParser.Elem),
        (∀ j (hj : j < i), find (sels.get ⟨j, Nat.lt_trans hj hi⟩) = none) →
        find (sels.get ⟨i, hi⟩) = some e →
        RedditParser.selectFirst find sels = some e) ∧
    (∀ (find : String → Option RedditParser.Elem) (sels : List String),
        (∀ s ∈ sels, find s = none) → RedditParser.selectFirst find sels = none) ∧
    (∀ find : String → Option RedditParser.Elem,
        (∀ s ∈ RedditParser.reddit_author_selectors, find s = none) →
        RedditParser.extract_author find = "Unknown") ∧
    (∀ find : String → Option RedditParser.Elem,
        (∀ s ∈ RedditParser.reddit_title_selectors, find s = none) →
        RedditParser.extract_title find none = "Unknown Title") := by
  refine ⟨fun find sels => selectFirst_first_match find sels,
          fun find sels => selectFirst_eq_none find sels, ?_, ?_⟩
  · intro find h
    have hn := selectFirst_eq_none find RedditParser.reddit_author_selectors h
    simp [RedditParser.extract_author, hn]
  · intro find h
    have hn := selectFirst_eq_none find RedditParser.reddit_title_selectors h
    simp [RedditParser.extract_title, hn]

/-- Witness for C7: under `c7find` the second title locator (`h1`) wins
although the sixth (`p.title a.title`) also matches, and an all-failing
root yields the default author. -/
theorem C7_witness :
    RedditParser.selectFirst c7find RedditParser.reddit_title_selectors =
      some { text := "T1", textNL := "T1", title_attr := none } ∧
    RedditParser.extract_author (fun _ => none) = "Unknown" :=
  ⟨C7_resolver_order.1 c7find RedditParser.reddit_title_selectors 1 (by decide)
      { text := "T1", textNL := "T1", title_attr := none }
      (fun j hj => by
        have hj0 : j = 0 := Nat.lt_one_iff.mp hj
        subst hj0
        rfl)
      rfl,
   C7_resolver_order.2.2.1 (fun _ => none) (fun s _ => rfl)⟩

/-! ## Claim C9 — top-level comment container filtering -/

/-- Claim C9 as frozen is false on the code: the single yielded element
carries both the `comment` and the nested `entry` marker, so the filter to
top-level containers comes out empty and the source then keeps the
original enumeration — the entry-marked element is not filtered out. -/
theorem C9_counterexample :
    RedditParser.filterTopLevel [c9nested] = [c9nested] ∧
    "comment" ∈ c9nested.classes ∧
    "entry" ∈ c9nested.classes :=
  ⟨rfl, by decide, by decide⟩

/-- Claim C9, amended: the first locator yielding any elements wins, and
when the yielded elements' class lists include the `comment` marker, the
enumeration is filtered to the elements whose classes contain `comment`
and not `entry` — provided that filter is non-empty; when every
comment-marked element also carries the `entry` marker (empty filter), the
original enumeration is kept unchanged. -/
theorem C9_filter_amended (elems : List RedditParser.CommentElem)
    (hdet : elems.any
      (fun e => strContains (RedditParser.pyStrList e.classes) "comment") = true) :
    (elems.filter (fun e => e.classes.contains "comment" && !e.classes.contains "entry") ≠ [] →
        RedditParser.filterTopLevel elems =
          elems.filter (fun e => e.classes.contains "comment" && !e.classes.contains "entry")) ∧
    (elems.filter (fun e => e.classes.contains "comment" && !e.classes.contains "entry") = [] →
        RedditParser.filterTopLevel elems = elems) ∧
    (∀ e2 ∈ elems.filter (fun e => e.classes.contains "comment" && !e.classes.contains "entry"),
        e2.classes.contains "comment" = true ∧ e2.classes.contains "entry" = false) ∧
    (∀ (select : String → List RedditParser.CommentElem) (i : Nat)
        (hi : i < RedditParser.reddit_comment_selectors.length),
        (∀ j (hj : j < i),
          select (RedditParser.reddit_comment_selectors.get ⟨j, Nat.lt_trans hj hi⟩) = []) →
        select (RedditParser.reddit_comment_selectors.get ⟨i, hi⟩) ≠ [] →
        RedditParser.selectElements select RedditParser.reddit_comment_selectors =
          select (RedditParser.reddit_comment_selectors.get ⟨i, hi⟩)) := by
  have hne : elems.isEmpty = false := by
    cases elems with
    | nil => simp at hdet
    | cons x xs => rfl
  refine ⟨?_, ?_, ?_, ?_⟩
  · intro hf
    have hfe : (elems.filter
        (fun e => e.classes.contains "comment" && !e.classes.contains "entry")).isEmpty = false := by
      cases hfilter : elems.filter
          (fun e => e.classes.contains "comment" && !e.classes.contains "entry") with
      | nil => exact absurd hfilter hf
      | cons x xs => rfl
    simp only [RedditParser.filterTopLevel, hne, hdet, hfe, Bool.not_false, Bool.and_self,
      eq_self_iff_true, if_true]
  · intro hf
    simp only [RedditParser.filterTopLevel, hne, hdet, hf, List.isEmpty_nil, Bool.not_true,
      Bool.not_false, Bool.and_self, eq_self_iff_true, if_true, Bool.false_eq_true, if_false]
  · intro e2 he2
    have hmem := List.mem_filter.mp he2
    have hprop := hmem.2
    constructor
    · exact (Bool.and_eq_true _ _ ▸ hprop).1
    · have h2 := (Bool.and_eq_true _ _ ▸ hprop).2
      cases hc : e2.classes.contains "entry" with
      | false => rfl
      | true => rw [hc] at h2; exact absurd h2 (by decide)
  · intro select i hi hprev hmatch
    exact selectElements_first_nonempty select RedditParser.reddit_comment_selectors i hi
      hprev hmatch

/-- Witness for C9: with one top-level and one nested container, the
nested one is filtered out. -/
theorem C9_witness :
    RedditParser.filterTopLevel [c9top, c9nested] = [c9top] := by
  have h := (C9_filter_amended [c9top, c9nested] rfl).1
    (fun hcontra => absurd (congrArg List.length hcontra) (by decide))
  exact h.trans rfl

/-! ## Claim C6 — per-comment failure isolation in the thread extractor -/

/-- The accumulated comments of the per-comment loop do not depend on the
value of the starting position counter. -/
theorem processCommentsAux_fst_index_free (l : List RedditParser.CommentElem) :
    ∀ i j, (RedditParser.processCommentsAux i l).1 =
      (RedditParser.processCommentsAux j l).1 := by
  induction l with
  | nil => intro i j; rfl
  | cons e rest ih =>
    intro i j
    cases hpc : RedditParser.processComment e with
    | error msg => simp [RedditParser.processCommentsAux, hpc, ih (i + 1) (j + 1)]
    | ok o =>
      cases o with
      | none => simp [RedditParser.processCommentsAux, hpc, ih (i + 1) (j + 1)]
      | some c => simp [RedditParser.processCommentsAux, hpc, ih (i + 1) (j + 1)]

/-- A raising container contributes a warning carrying its position and
nothing else: the accumulated comments equal those of the same run without
it. -/
theorem processCommentsAux_isolate (e : RedditParser.CommentElem) (msg : String)
    (h : e.raises = some msg) (ys : List RedditParser.CommentElem) :
    ∀ (xs : List RedditParser.CommentElem) (i : Nat),
      (RedditParser.processCommentsAux i (xs ++ e :: ys)).1 =
        (RedditParser.processCommentsAux i (xs ++ ys)).1 ∧
      RedditParser.redditWarn (i + xs.length) msg ∈
        (RedditParser.processCommentsAux i (xs ++ e :: ys)).2 := by
  intro xs
  induction xs with
  | nil =>
    intro i
    have hpc : RedditParser.processComment e = Except.error msg := by
      simp [RedditParser.processComment, h]
    constructor
    · simp only [List.nil_append, RedditParser.processCommentsAux, hpc]
      exact processCommentsAux_fst_index_free ys (i + 1) i
    · simp [RedditParser.processCommentsAux, hpc]
  | cons x rest ih =>
    intro i
    have harith : i + 1 + rest.length = i + (rest.length + 1) := by omega
    cases hpc : RedditParser.processComment x with
    | error m2 =>
      refine ⟨?_, ?_⟩
      · simp [RedditParser.processCommentsAux, hpc, (ih (i + 1)).1]
      · simp only [List.cons_append, RedditParser.processCommentsAux, hpc, List.length_cons]
        refine List.mem_cons_of_mem _ ?_
        have := (ih (i + 1)).2
        rwa [harith] at this
    | ok o =>
      cases o with
      | none =>
        refine ⟨?_, ?_⟩
        · simp [RedditParser.processCommentsAux, hpc, (ih (i + 1)).1]
        · simp only [List.cons_append, RedditParser.processCommentsAux, hpc, List.length_cons]
          have := (ih (i + 1)).2
          rwa [harith] at this
      | some c =>
        refine ⟨?_, ?_⟩
        · simp [RedditParser.processCommentsAux, hpc, (ih (i + 1)).1]
        · simp only [List.cons_append, RedditParser.processCommentsAux, hpc, List.length_cons]
          have := (ih (i + 1)).2
          rwa [harith] at this

/-- Claim C6: an unexpected exception raised while processing one comment
container is caught at that item's boundary and logged as a warning
carrying the item's 1-based position, and the extracted comments are
exactly those of the run without the failing container — one failing
comment never aborts the thread extraction (the loop is a total
function). -/
theorem C6_per_item_isolation (xs ys : List RedditParser.CommentElem)
    (e : RedditParser.CommentElem) (msg : String) (h : e.raises = some msg) :
    (RedditParser.processCommentsAux 1 (xs ++ e :: ys)).1 =
      (RedditParser.processCommentsAux 1 (xs ++ ys)).1 ∧
    RedditParser.redditWarn (xs.length + 1) msg ∈
      (RedditParser.processCommentsAux 1 (xs ++ e :: ys)).2 := by
  have hh := processCommentsAux_isolate e msg h ys xs 1
  rwa [Nat.add_comm 1 xs.length] at hh

/-- Witness for C6: a raising container in second position is reported at
position 2 and does not change the extracted comments. -/
theorem C6_witness :
    (RedditParser.processCommentsAux 1 [c6goodElem, c6badElem]).1 =
      (RedditParser.processCommentsAux 1 [c6goodElem]).1 ∧
    RedditParser.redditWarn 2 "ValueError: boom" ∈
      (RedditParser.processCommentsAux 1 [c6goodElem, c6badElem]).2 :=
  C6_per_item_isolation [c6goodElem] [] c6badElem "ValueError: boom" rfl

/-! ## Claim C4 — no empty-text comment entries -/

/-- A comment container that the thread loop turns into a comment has
non-empty, non-whitespace-only text: the `not text or not text.strip()`
guard rejected both degenerate shapes. -/
theorem processComment_some_text (e : RedditParser.CommentElem) (c : RedditParser.RedditComment)
    (h : RedditParser.processComment e = Except.ok (some c)) :
    c.text ≠ "" ∧ pyStrip c.text ≠ "" := by
  cases hr : e.raises with
  | some msg => simp [RedditParser.processComment, hr] at h
  | none =>
    cases ht : RedditParser.extract_comment_text e.find with
    | none => simp [RedditParser.processComment, hr, ht] at h
    | some text =>
      simp only [RedditParser.processComment, hr, ht] at h
      split at h
      · simp at h
      · next hcond =>
        have hc : _ = c := Option.some.inj (Except.ok.inj h)
        subst hc
        simp only [Bool.or_eq_true, decide_eq_true_eq] at hcond
        push_neg at hcond
        exact hcond

/-- Every comment accumulated by the thread loop has non-empty,
non-whitespace-only text. -/
theorem processCommentsAux_text_nonempty :
    ∀ (l : List RedditParser.CommentElem) (i : Nat) (c : RedditParser.RedditComment),
      c ∈ (RedditParser.processCommentsAux i l).1 →
      c.text ≠ "" ∧ pyStrip c.text ≠ "" := by
  intro l
  induction l with
  | nil => intro i c hc; simp [RedditParser.processCommentsAux] at hc
  | cons e rest ih =>
    intro i c hc
    cases hpc : RedditParser.processComment e with
    | error msg =>
      simp only [RedditParser.processCommentsAux, hpc] at hc
      exact ih (i + 1) c hc
    | ok o =>
      cases o with
      | none =>
        simp only [RedditParser.processCommentsAux, hpc] at hc
        exact ih (i + 1) c hc
      | some c0 =>
        simp only [RedditParser.processCommentsAux, hpc, List.mem_cons] at hc
        cases hc with
        | inl heq => subst heq; exact processComment_some_text e c hpc
        | inr hmem => exact ih (i + 1) c hmem

/-- A candidate the video comment parser accepts has non-empty text
(the `if not text: return None` guard). -/
theorem parse_comment_thread_text_ne (d : YouTubeParser.CommentData)
    (c : YouTubeParser.YouTubeComment)
    (h : YouTubeParser.parse_comment_thread d = some c) : c.text ≠ "" := by
  simp only [YouTubeParser.parse_comment_thread] at h
  split at h
  · simp at h
  · next hcond =>
    have hc : _ = c := Option.some.inj h
    subst hc
    exact hcond

/-- Every comment accumulated by the video budget loop has non-empty
text. -/
theorem commentsLoop_text_nonempty :
    ∀ (threads : List YouTubeParser.CommentData) (limit total : Nat)
      (c : YouTubeParser.YouTubeComment),
      c ∈ (YouTubeParser.commentsLoop limit total threads).1 → c.text ≠ "" := by
  intro threads
  induction threads with
  | nil => intro limit total c hc; simp [YouTubeParser.commentsLoop] at hc
  | cons d rest ih =>
    intro limit total c hc
    cases hp : YouTubeParser.parse_comment_thread d with
    | none =>
      simp only [YouTubeParser.commentsLoop, hp] at hc
      exact ih limit total c hc
    | some c0 =>
      simp only [YouTubeParser.commentsLoop, hp] at hc
      split at hc
      · simp at hc
      · simp only [List.mem_cons] at hc
        cases hc with
        | inl heq => subst heq; exact parse_comment_thread_text_ne d c hp
        | inr hmem => exact ih limit (total + c0.text.length) c hmem

/-- When `_extract_comments` returns a comment list, it is the budget
loop's accumulation. -/
theorem extract_comments_some (limit : Nat) (threads : List YouTubeParser.CommentData)
    (cs : List YouTubeParser.YouTubeComment)
    (h : (YouTubeParser.extract_comments limit threads).1 = some cs) :
    cs = (YouTubeParser.commentsLoop limit 0 threads).1 := by
  simp only [YouTubeParser.extract_comments] at h
  split at h
  · simp at h
  · exact (Option.some.inj h).symm

/-- Claim C4 as frozen is false on the code: a candidate video comment
whose payload text is the whitespace-only string `" "` passes the
`if not text` guard and is emitted into the record's comments sequence. -/
theorem C4_counterexample :
    YouTubeParser.extract_comments_api
        (YouTubeParser.CommentsFetch.page [mkCandidate " "]) 100 =
      (some [{ author := "Unknown", text := " ", likes := none, timestamp := none,
               is_pinned := false, is_hearted := false }], false) ∧
    pyStrip " " = "" :=
  ⟨rfl, rfl⟩

/-- Claim C4, amended: a thread record's comments never contain an entry
whose text is empty or whitespace-only (both `not text` and
`not text.strip()` are checked), while a video record's comments never
contain an entry whose text is empty — but whitespace-only text is not
filtered there, since only `not text` is checked. -/
theorem C4_text_invariant_amended :
    (∀ (select : String → List RedditParser.CommentElem) (c : RedditParser.RedditComment),
        c ∈ (RedditParser.extract_comments select).1 →
        c.text ≠ "" ∧ pyStrip c.text ≠ "") ∧
    (∀ (fetch : YouTubeParser.CommentsFetch) (limit : Nat)
        (cs : List YouTubeParser.YouTubeComment) (c : YouTubeParser.YouTubeComment),
        (YouTubeParser.extract_comments_api fetch limit).1 = some cs →
        c ∈ cs → c.text ≠ "") := by
  constructor
  · intro select c hc
    exact processCommentsAux_text_nonempty _ 1 c hc
  · intro fetch limit cs c hsome hmem
    cases fetch with
    | noScraper => simp [YouTubeParser.extract_comments_api] at hsome
    | noToken => simp [YouTubeParser.extract_comments_api] at hsome
    | fetchFailed => simp [YouTubeParser.extract_comments_api] at hsome
    | page threads =>
      have hcs := extract_comments_some limit threads cs hsome
      subst hcs
      exact commentsLoop_text_nonempty threads limit 0 c hmem

/-- Witness for C4: an ordinary one-comment page yields a non-empty text,
via the amended invariant. -/
theorem C4_witness :
    ({ author := "Unknown", text := "hello", likes := none, timestamp := none,
       is_pinned := false, is_hearted := false } : YouTubeParser.YouTubeComment).text ≠ "" :=
  C4_text_invariant_amended.2 (YouTubeParser.CommentsFetch.page [mkCandidate "hello"]) 100
    [{ author := "Unknown", text := "hello", likes := none, timestamp := none,
       is_pinned := false, is_hearted := false }] _ rfl (List.mem_singleton.mpr rfl)

/-! ## Claims C2 and C10 — the paginated comment assembler's budget -/

/-- Unfolding lemma for the comment-length measure. -/
theorem textLenSum_cons (c : YouTubeParser.YouTubeComment)
    (cs : List YouTubeParser.YouTubeComment) :
    YouTubeParser.textLenSum (c :: cs) = c.text.length + YouTubeParser.textLenSum cs := by
  simp [YouTubeParser.textLenSum]

/-- A prefix of the candidates cannot have more text than all of them. -/
theorem textLenSum_take_le (cs : List YouTubeParser.YouTubeComment) (n : Nat) :
    YouTubeParser.textLenSum (cs.take n) ≤ YouTubeParser.textLenSum cs := by
  conv_rhs => rw [← List.take_append_drop n cs]
  simp only [YouTubeParser.textLenSum, List.map_append, List.sum_append]
  exact Nat.le_add_right _ _

/-- Full characterisation of the budget loop: a run that does not truncate
accumulates every parsed candidate within budget; a truncating run
accumulates exactly a strict prefix of the parsed candidates whose total
text fits the budget while adding the next parsed candidate exceeds it. -/
theorem commentsLoop_spec (limit : Nat) :
    ∀ (threads : List YouTubeParser.CommentData) (total : Nat), total ≤ limit →
      (((YouTubeParser.commentsLoop limit total threads).2 = false →
          (YouTubeParser.commentsLoop limit total threads).1 =
            threads.filterMap YouTubeParser.parse_comment_thread ∧
          total + YouTubeParser.textLenSum
              (threads.filterMap YouTubeParser.parse_comment_thread) ≤ limit) ∧
        ((YouTubeParser.commentsLoop limit total threads).2 = true →
          ∃ k, k < (threads.filterMap YouTubeParser.parse_comment_thread).length ∧
            (YouTubeParser.commentsLoop limit total threads).1 =
              (threads.filterMap YouTubeParser.parse_comment_thread).take k ∧
            total + YouTubeParser.textLenSum
                ((threads.filterMap YouTubeParser.parse_comment_thread).take k) ≤ limit ∧
            limit < total + YouTubeParser.textLenSum
                ((threads.filterMap YouTubeParser.parse_comment_thread).take (k + 1)))) := by
  intro threads
  induction threads with
  | nil =>
    intro total htot
    constructor
    · intro _
      exact ⟨rfl, by simpa [YouTubeParser.textLenSum] using htot⟩
    · intro hfalse
      simp [YouTubeParser.commentsLoop] at hfalse
  | cons d rest ih =>
    intro total htot
    cases hp : YouTubeParser.parse_comment_thread d with
    | none =>
      have hfm : (d :: rest).filterMap YouTubeParser.parse_comment_thread =
          rest.filterMap YouTubeParser.parse_comment_thread := by
        simp [List.filterMap_cons, hp]
      have hloop : YouTubeParser.commentsLoop limit total (d :: rest) =
          YouTubeParser.commentsLoop limit total rest := by
        simp [YouTubeParser.commentsLoop, hp]
      rw [hfm, hloop]
      exact ih total htot
    | some c =>
      have hfm : (d :: rest).filterMap YouTubeParser.parse_comment_thread =
          c :: rest.filterMap YouTubeParser.parse_comment_thread := by
        simp [List.filterMap_cons, hp]
      rw [hfm]
      by_cases hov : total + c.text.length > limit
      · have hloop : YouTubeParser.commentsLoop limit total (d :: rest) = ([], true) := by
          simp only [YouTubeParser.commentsLoop, hp]
          rw [if_pos hov]
        rw [hloop]
        constructor
        · intro hfalse; simp at hfalse
        · intro _
          refine ⟨0, by simp, rfl, by simpa using htot, ?_⟩
          rw [List.take_succ_cons, List.take_zero, textLenSum_cons]
          simp only [YouTubeParser.textLenSum, List.map_nil, List.sum_nil]
          omega
      · have hloop : YouTubeParser.commentsLoop limit total (d :: rest) =
            (c :: (YouTubeParser.commentsLoop limit (total + c.text.length) rest).1,
             (YouTubeParser.commentsLoop limit (total + c.text.length) rest).2) := by
          simp only [YouTubeParser.commentsLoop, hp]
          rw [if_neg hov]
        rw [hloop]
        have hle : total + c.text.length ≤ limit := by omega
        have ihr := ih (total + c.text.length) hle
        constructor
        · intro hfalse
          have hh := ihr.1 hfalse
          refine ⟨by rw [hh.1], ?_⟩
          rw [textLenSum_cons]
          have := hh.2
          omega
        · intro htrue
          obtain ⟨k, hk, h1, h2, h3⟩ := ihr.2 htrue
          refine ⟨k + 1, ?_, ?_, ?_, ?_⟩
          · simpa using Nat.succ_lt_succ hk
          · rw [List.take_succ_cons, h1]
          · rw [List.take_succ_cons, textLenSum_cons]; omega
          · rw [List.take_succ_cons, textLenSum_cons]; omega

/-- The comments field, defaulted, is exactly the loop's accumulation. -/
theorem extract_comments_fst_getD (limit : Nat) (threads : List YouTubeParser.CommentData) :
    (YouTubeParser.extract_comments limit threads).1.getD [] =
      (YouTubeParser.commentsLoop limit 0 threads).1 := by
  cases hl : (YouTubeParser.commentsLoop limit 0 threads).1 with
  | nil => simp [YouTubeParser.extract_comments, hl]
  | cons x xs => simp [YouTubeParser.extract_comments, hl]

/-- Claim C2: for the assembler run over a fetched page,
`commentsTruncated = true` iff some parsed candidate's text length added
to the running total strictly exceeds the budget before all candidates
are consumed; a truncating run keeps a prefix whose total length is within
the budget while the next parsed candidate would strictly exceed it (that
candidate is excluded); a non-truncating run keeps every parsed candidate
within budget; and a skipped or unavailable fetch (no scraper, no
continuation token, failed page fetch) yields `(none, false)`. -/
theorem C2_budget_truncation (limit : Nat) (threads : List YouTubeParser.CommentData) :
    ((YouTubeParser.extract_comments_api
        (YouTubeParser.CommentsFetch.page threads) limit).2 = true ↔
      ∃ k, k < (threads.filterMap YouTubeParser.parse_comment_thread).length ∧
        YouTubeParser.textLenSum
          ((threads.filterMap YouTubeParser.parse_comment_thread).take k) ≤ limit ∧
        limit < YouTubeParser.textLenSum
          ((threads.filterMap YouTubeParser.parse_comment_thread).take (k + 1))) ∧
    ((YouTubeParser.extract_comments_api
        (YouTubeParser.CommentsFetch.page threads) limit).2 = true →
      ∃ k, k < (threads.filterMap YouTubeParser.parse_comment_thread).length ∧
        (YouTubeParser.extract_comments_api
            (YouTubeParser.CommentsFetch.page threads) limit).1.getD [] =
          (threads.filterMap YouTubeParser.parse_comment_thread).take k ∧
        YouTubeParser.textLenSum
          ((threads.filterMap YouTubeParser.parse_comment_thread).take k) ≤ limit ∧
        limit < YouTubeParser.textLenSum
          ((threads.filterMap YouTubeParser.parse_comment_thread).take (k + 1))) ∧
    ((YouTubeParser.extract_comments_api
        (YouTubeParser.CommentsFetch.page threads) limit).2 = false →
      (YouTubeParser.extract_comments_api
          (YouTubeParser.CommentsFetch.page threads) limit).1.getD [] =
        threads.filterMap YouTubeParser.parse_comment_thread ∧
      YouTubeParser.textLenSum (threads.filterMap YouTubeParser.parse_comment_thread) ≤ limit) ∧
    YouTubeParser.extract_comments_api YouTubeParser.CommentsFetch.noToken limit =
      (none, false) ∧
    YouTubeParser.extract_comments_api YouTubeParser.CommentsFetch.fetchFailed limit =
      (none, false) ∧
    YouTubeParser.extract_comments_api YouTubeParser.CommentsFetch.noScraper limit =
      (none, false) := by
  have hspec := commentsLoop_spec limit threads 0 (Nat.zero_le limit)
  have hsnd : (YouTubeParser.extract_comments_api
      (YouTubeParser.CommentsFetch.page threads) limit).2 =
      (YouTubeParser.commentsLoop limit 0 threads).2 := rfl
  have hfst : (YouTubeParser.extract_comments_api
      (YouTubeParser.CommentsFetch.page threads) limit).1.getD [] =
      (YouTubeParser.commentsLoop limit 0 threads).1 :=
    extract_comments_fst_getD limit threads
  refine ⟨⟨?_, ?_⟩, ?_, ?_, rfl, rfl, rfl⟩
  · intro htrue
    rw [hsnd] at htrue
    obtain ⟨k, hk, _, h2, h3⟩ := hspec.2 htrue
    exact ⟨k, hk, by omega, by omega⟩
  · rintro ⟨k, hk, h2, h3⟩
    rw [hsnd]
    cases hb : (YouTubeParser.commentsLoop limit 0 threads).2 with
    | true => rfl
    | false =>
      have hall := (hspec.1 hb).2
      have hle := textLenSum_take_le
        (threads.filterMap YouTubeParser.parse_comment_thread) (k + 1)
      omega
  · intro htrue
    rw [hsnd] at htrue
    obtain ⟨k, hk, h1, h2, h3⟩ := hspec.2 htrue
    exact ⟨k, hk, by rw [hfst, h1], by omega, by omega⟩
  · intro hfalse
    rw [hsnd] at hfalse
    have hh := hspec.1 hfalse
    exact ⟨by rw [hfst, hh.1], by have := hh.2; omega⟩

/-- Witness for C2: the spec scenario — budget 100, three parsed comments
of length 40 each — truncates, and an unavailable fetch yields
`(none, false)`. -/
theorem C2_witness :
    (YouTubeParser.extract_comments_api
        (YouTubeParser.CommentsFetch.page c2demo) 100).2 = true ∧
    (∃ k, k < (c2demo.filterMap YouTubeParser.parse_comment_thread).length ∧
      YouTubeParser.textLenSum
        ((c2demo.filterMap YouTubeParser.parse_comment_thread).take k) ≤ 100 ∧
      100 < YouTubeParser.textLenSum
        ((c2demo.filterMap YouTubeParser.parse_comment_thread).take (k + 1))) ∧
    YouTubeParser.extract_comments_api YouTubeParser.CommentsFetch.noToken 100 =
      (none, false) :=
  ⟨rfl, (C2_budget_truncation 100 c2demo).1.mp rfl,
   (C2_budget_truncation 100 c2demo).2.2.2.1⟩

/-- The budget loop on candidates that all fail to parse accumulates
nothing and does not truncate. -/
theorem commentsLoop_all_none (limit : Nat) :
    ∀ (threads : List YouTubeParser.CommentData) (total : Nat),
      (∀ d ∈ threads, YouTubeParser.parse_comment_thread d = none) →
      YouTubeParser.commentsLoop limit total threads = ([], false) := by
  intro threads
  induction threads with
  | nil => intro total _; rfl
  | cons d rest ih =>
    intro total h
    have hp : YouTubeParser.parse_comment_thread d = none :=
      h d (List.mem_cons_self d rest)
    have hr := ih total (fun x hx => h x (List.mem_cons_of_mem d hx))
    simp [YouTubeParser.commentsLoop, hp, hr]

/-- Claim C10: when the retrieval runs but zero comments are accumulated —
every candidate fails to parse, or already the first parsed candidate's
text alone strictly exceeds the budget — the comments field is `none`, not
an empty sequence; in the overflow case `none` co-occurs with a `true`
truncation flag. -/
theorem C10_none_over_empty (limit : Nat) :
    (∀ threads : List YouTubeParser.CommentData,
        (∀ d ∈ threads, YouTubeParser.parse_comment_thread d = none) →
        YouTubeParser.extract_comments limit threads = (none, false)) ∧
    (∀ (d : YouTubeParser.CommentData) (c : YouTubeParser.YouTubeComment)
        (rest : List YouTubeParser.CommentData),
        YouTubeParser.parse_comment_thread d = some c → limit < c.text.length →
        YouTubeParser.extract_comments limit (d :: rest) = (none, true)) ∧
    (∀ threads : List YouTubeParser.CommentData,
        (YouTubeParser.commentsLoop limit 0 threads).1 = [] →
        (YouTubeParser.extract_comments limit threads).1 = none) := by
  refine ⟨?_, ?_, ?_⟩
  · intro threads h
    have hl := commentsLoop_all_none limit threads 0 h
    simp [YouTubeParser.extract_comments, hl]
  · intro d c rest hp hov
    have hl : YouTubeParser.commentsLoop limit 0 (d :: rest) = ([], true) := by
      simp only [YouTubeParser.commentsLoop, hp]
      rw [if_pos (by omega)]
    simp [YouTubeParser.extract_comments, hl]
  · intro threads h
    simp [YouTubeParser.extract_comments, h]

/-- Witness for C10: one six-character comment against a budget of five
characters yields `comments = none` together with `truncated = true`. -/
theorem C10_witness :
    YouTubeParser.extract_comments 5 [mkCandidate "abcdef"] = (none, true) :=
  (C10_none_over_empty 5).2.1 (mkCandidate "abcdef")
    { author := "Unknown", text := "abcdef", likes := none, timestamp := none,
      is_pinned := false, is_hearted := false } [] rfl (by decide)

/-! ## Claim C3 — missing or undecodable initial-state blob -/

/-- Claim C3 as frozen is false on the code: the decode failure is warned
and the blob treated as absent, but `parse_video` then raises `ValueError`
instead of completing with defaulted fields. -/
theorem C3_counterexample :
    YouTubeParser.extract_initial_data (some "not valid json") (fun _ => none) =
      (none, ["Warning: Failed to parse ytInitialData"]) ∧
    YouTubeParser.parse_video none "https://www.youtube.com/watch?v=dQw4w9WgXcQ" =
      Except.error (PyErr.valueError "Failed to extract YouTube data from page") :=
  ⟨rfl, rfl⟩

/-- Claim C3, amended: a missing or undecodable blob is reported as a
warning and treated as absent, but video-record extraction then fails with
the `Failed to extract YouTube data from page` error (also for a present
but falsy blob such as the empty object) rather than completing;
field-by-field degradation to typed defaults happens only when a truthy
blob is present — then a graph with none of the walked fields yields every
field's typed default. -/
theorem C3_blob_failure_amended :
    (∀ (raw : String) (decode : String → Option JVal), decode raw = none →
        YouTubeParser.extract_initial_data (some raw) decode =
          (none, ["Warning: Failed to parse ytInitialData"])) ∧
    (∀ decode : String → Option JVal,
        YouTubeParser.extract_initial_data none decode =
          (none, ["Warning: Could not find ytInitialData in HTML"])) ∧
    (∀ url : String,
        YouTubeParser.parse_video none url =
          Except.error (PyErr.valueError "Failed to extract YouTube data from page")) ∧
    (∀ (j : JVal) (url : String), j.falsy = true →
        YouTubeParser.parse_video (some j) url =
          Except.error (PyErr.valueError "Failed to extract YouTube data from page")) ∧
    YouTubeParser.parse_video (some benignBlob)
        "https://www.youtube.com/watch?v=dQw4w9WgXcQ" =
      Except.ok
        { title := JVal.str "Unknown Title"
          channel_name := JVal.str "Unknown Channel"
          description := JVal.str ""
          description_links := []
          view_count := JVal.null
          upload_date := JVal.null
          like_count := JVal.null
          video_id := "dQw4w9WgXcQ"
          url := "https://www.youtube.com/watch?v=dQw4w9WgXcQ"
          comments := none
          comments_truncated := false } := by
  refine ⟨?_, ?_, ?_, ?_, rfl⟩
  · intro raw decode h
    simp [YouTubeParser.extract_initial_data, h]
  · intro decode
    rfl
  · intro url
    rfl
  · intro j url h
    simp only [YouTubeParser.parse_video, h, eq_self_iff_true, if_true]
    rfl

/-- Witness for C3: an undecodable blob at a concrete input, and the
extraction error for a present-but-falsy blob. -/
theorem C3_witness :
    YouTubeParser.extract_initial_data (some "x") (fun _ => none) =
      (none, ["Warning: Failed to parse ytInitialData"]) ∧
    YouTubeParser.parse_video (some (JVal.obj [])) "u" =
      Except.error (PyErr.valueError "Failed to extract YouTube data from page") :=
  ⟨C3_blob_failure_amended.1 "x" (fun _ => none) rfl,
   C3_blob_failure_amended.2.2.2.1 (JVal.obj []) "u" rfl⟩

/-! ## Claim C5 — required video id, per-field degradation -/

/-- Claim C5, evaluated: no id derivable from the URL is a hard
`ValueError` for the whole record (first two conjuncts), but the claim's
degradation half has a code bug: with a valid id, a graph whose
primary-info renderer is a non-dict makes `_extract_title` raise
`AttributeError` — absent from its `except (KeyError, IndexError,
TypeError)` clause, unlike every sibling extractor — aborting the whole
record instead of degrading the title to `"Unknown Title"`. -/
theorem C5_videoid_required_title_bug :
    YouTubeParser.extract_video_id "https://example.com/page" =
      Except.error (PyErr.valueError
        "Could not extract video ID from URL: https://example.com/page") ∧
    YouTubeParser.parse_video (some benignBlob) "https://example.com/page" =
      Except.error (PyErr.valueError
        "Could not extract video ID from URL: https://example.com/page") ∧
    YouTubeParser.extract_video_id "https://www.youtube.com/watch?v=dQw4w9WgXcQ" =
      Except.ok "dQw4w9WgXcQ" ∧
    YouTubeParser.parse_video (some badPrimaryBlob)
        "https://www.youtube.com/watch?v=dQw4w9WgXcQ" =
      Except.error PyErr.attributeError :=
  ⟨rfl, rfl, rfl, rfl⟩

/-! ## Claim C8 — description-link resolution -/

/-- Inversion of a successful `Except` bind. -/
theorem exceptBindOkInv {α β : Type} {m : Except PyErr α} {k : α → Except PyErr β} {v : β}
    (h : (m >>= k) = Except.ok v) : ∃ a, m = Except.ok a ∧ k a = Except.ok v := by
  cases m with
  | ok a => exact ⟨a, rfl, h⟩
  | error e => exact absurd h (by simp [Bind.bind, Except.bind])

/-- Reduction of a bind on a success value. -/
theorem exceptOkBind {α β : Type} (a : α) (k : α → Except PyErr β) :
    ((Except.ok a : Except PyErr α) >>= k) = k a := rfl

/-- Reduction of a bind on an error value. -/
theorem exceptErrBind {α β : Type} (e : PyErr) (k : α → Except PyErr β) :
    ((Except.error e : Except PyErr α) >>= k) = Except.error e := rfl

/-- `pure` on `Except` is `ok`. -/
theorem exceptPureEq {α : Type} (a : α) : (pure a : Except PyErr α) = Except.ok a := rfl

/-- The `q`-parameter group matched by the redirect pattern is never the
empty string (the `[^&]+` class requires at least one character). -/
theorem findQ_ne_nil : ∀ (l : List Char) (v : List Char),
    YouTubeParser.findQ l = some v → v ≠ [] := by
  intro l
  induction l with
  | nil => intro v h; simp [YouTubeParser.findQ] at h
  | cons c rest ih =>
    intro v h
    simp only [YouTubeParser.findQ] at h
    split at h
    · split at h
      · split at h
        · exact ih v h
        · next hne =>
          have hv := Option.some.inj h
          subst hv
          intro hcontra
          rw [hcontra] at hne
          simp at hne
      · exact ih v h
    · exact ih v h

/-- Percent-decoding never turns a non-empty text into an empty one. -/
theorem unquoteList_ne_nil (l : List Char) (h : l ≠ []) :
    YouTubeParser.unquoteList l ≠ [] := by
  unfold YouTubeParser.unquoteList
  split
  · exact absurd rfl h
  · split
    · exact List.cons_ne_nil _ _
    · exact List.cons_ne_nil _ _
  · exact List.cons_ne_nil _ _

/-- A string built from a non-empty character list is non-empty. -/
theorem strMk_ne_empty (l : List Char) (h : l ≠ []) : String.mk l ≠ "" := by
  intro hcon
  exact h (congrArg String.data hcon)

/-- A successful url resolution always yields a non-empty string: the
unquoted `q` group, the origin-prefixed path, or the unchanged (truthy)
raw url; every non-string truthy url raises instead. -/
theorem resolveUrlJ_ok_str (url t : JVal) (hne : url.falsy = false)
    (h : YouTubeParser.resolveUrlJ url = Except.ok t) :
    ∃ s : String, t = JVal.str s ∧ s ≠ "" := by
  cases url with
  | null => simp [JVal.falsy] at hne
  | bool b =>
    cases b with
    | false => simp [JVal.falsy] at hne
    | true =>
      exfalso
      simp only [YouTubeParser.resolveUrlJ, pyIn, exceptErrBind] at h
      exact absurd h (by simp)
  | num n =>
    exfalso
    simp only [YouTubeParser.resolveUrlJ, pyIn, exceptErrBind] at h
    exact absurd h (by simp)
  | arr items =>
    exfalso
    simp only [YouTubeParser.resolveUrlJ, pyIn, exceptOkBind] at h
    split at h
    · simp only [exceptPureEq, exceptOkBind, eq_self_iff_true, if_true] at h
      simp only [YouTubeParser.pyReSearchQ, exceptErrBind] at h
      exact absurd h (by simp)
    · split at h
      · simp only [YouTubeParser.pyReSearchQ, exceptErrBind] at h
        exact absurd h (by simp)
      · simp only [YouTubeParser.pyStartsWithSlash, exceptErrBind] at h
        exact absurd h (by simp)
  | obj fields =>
    exfalso
    simp only [YouTubeParser.resolveUrlJ, pyIn, exceptOkBind] at h
    split at h
    · simp only [exceptPureEq, exceptOkBind, eq_self_iff_true, if_true] at h
      simp only [YouTubeParser.pyReSearchQ, exceptErrBind] at h
      exact absurd h (by simp)
    · split at h
      · simp only [YouTubeParser.pyReSearchQ, exceptErrBind] at h
        exact absurd h (by simp)
      · simp only [YouTubeParser.pyStartsWithSlash, exceptErrBind] at h
        exact absurd h (by simp)
  | str s =>
    have hs : s ≠ "" := by simpa [JVal.falsy] using hne
    simp only [YouTubeParser.resolveUrlJ, pyIn, exceptOkBind] at h
    split at h
    · simp only [exceptPureEq, exceptOkBind, eq_self_iff_true, if_true] at h
      simp only [YouTubeParser.pyReSearchQ, exceptOkBind] at h
      cases hq : YouTubeParser.findQ s.data with
      | some v =>
        rw [hq] at h
        simp only [Option.map_some'] at h
        have ht : JVal.str (YouTubeParser.unquote (String.mk v)) = t := Except.ok.inj h
        refine ⟨YouTubeParser.unquote (String.mk v), ht.symm, ?_⟩
        exact strMk_ne_empty _ (unquoteList_ne_nil v (findQ_ne_nil s.data v hq))
      | none =>
        rw [hq] at h
        simp only [Option.map_none'] at h
        exact ⟨s, (Except.ok.inj h).symm, hs⟩
    · split at h
      · simp only [YouTubeParser.pyReSearchQ, exceptOkBind] at h
        cases hq : YouTubeParser.findQ s.data with
        | some v =>
          rw [hq] at h
          simp only [Option.map_some'] at h
          have ht : JVal.str (YouTubeParser.unquote (String.mk v)) = t := Except.ok.inj h
          refine ⟨YouTubeParser.unquote (String.mk v), ht.symm, ?_⟩
          exact strMk_ne_empty _ (unquoteList_ne_nil v (findQ_ne_nil s.data v hq))
        | none =>
          rw [hq] at h
          simp only [Option.map_none'] at h
          exact ⟨s, (Except.ok.inj h).symm, hs⟩
      · simp only [YouTubeParser.pyStartsWithSlash, exceptOkBind] at h
        split at h
        · refine ⟨"https://www.youtube.com" ++ s, (Except.ok.inj h).symm, ?_⟩
          intro hcon
          have hlen := congrArg String.length hcon
          rw [String.length_append] at hlen
          have h23 : ("https://www.youtube.com" : String).length = 23 := rfl
          have h0 : ("" : String).length = 0 := rfl
          rw [h23, h0] at hlen
          exact absurd hlen (by omega)
        · exact ⟨s, (Except.ok.inj h).symm, hs⟩

/-- Every link emitted by the command-run loop carries a non-empty string
url: a run with a falsy raw url is skipped before resolution, and
resolution preserves non-emptiness. -/
theorem runLoop_url_nonempty (descText : JVal) :
    ∀ (runs : List JVal) (links : List YouTubeParser.YtLink),
      YouTubeParser.runLoop descText runs = Except.ok links →
      ∀ l ∈ links, ∃ s, l.url = JVal.str s ∧ s ≠ "" := by
  intro runs
  induction runs with
  | nil =>
    intro links h l hl
    have hlk : ([] : List YouTubeParser.YtLink) = links := Except.ok.inj h
    subst hlk
    simp at hl
  | cons run rest ih =>
    intro links h l hl
    simp only [YouTubeParser.runLoop] at h
    obtain ⟨startIdx, h1, h⟩ := exceptBindOkInv h
    obtain ⟨length, h2, h⟩ := exceptBindOkInv h
    split at h
    · simp only [exceptPureEq, exceptOkBind] at h
      obtain ⟨onTap, h4, h⟩ := exceptBindOkInv h
      obtain ⟨itc, h5, h⟩ := exceptBindOkInv h
      obtain ⟨uep, h6, h⟩ := exceptBindOkInv h
      obtain ⟨url0, h7, h⟩ := exceptBindOkInv h
      split at h
      · exact ih links h l hl
      · next hfalsy =>
        obtain ⟨url1, h8, h⟩ := exceptBindOkInv h
        obtain ⟨more, h9, h⟩ := exceptBindOkInv h
        have hlk : _ = links := Except.ok.inj h
        subst hlk
        rcases List.mem_cons.mp hl with hl1 | hl2
        · subst hl1
          exact resolveUrlJ_ok_str url0 url1 (by simpa using hfalsy) h8
        · exact ih more h9 l hl2
    · obtain ⟨eIdx, h3a, h⟩ := exceptBindOkInv h
      obtain ⟨linkText, h3b, h⟩ := exceptBindOkInv h
      obtain ⟨onTap, h4, h⟩ := exceptBindOkInv h
      obtain ⟨itc, h5, h⟩ := exceptBindOkInv h
      obtain ⟨uep, h6, h⟩ := exceptBindOkInv h
      obtain ⟨url0, h7, h⟩ := exceptBindOkInv h
      split at h
      · exact ih links h l hl
      · next hfalsy =>
        obtain ⟨url1, h8, h⟩ := exceptBindOkInv h
        obtain ⟨more, h9, h⟩ := exceptBindOkInv h
        have hlk : _ = links := Except.ok.inj h
        subst hlk
        rcases List.mem_cons.mp hl with hl1 | hl2
        · subst hl1
          exact resolveUrlJ_ok_str url0 url1 (by simpa using hfalsy) h8
        · exact ih more h9 l hl2

/-- A command run with no (equivalently, an empty) target url is dropped:
the loop's output over it equals the output without it. -/
theorem runLoop_drop_empty (d : String) (rest : List JVal) :
    YouTubeParser.runLoop (JVal.str d) (JVal.obj [] :: rest) =
      YouTubeParser.runLoop (JVal.str d) rest := by
  by_cases hd : d = ""
  · subst hd; rfl
  · have hd2 : decide (d = "") = false := decide_eq_false hd
    simp only [YouTubeParser.runLoop, pyGetD, List.lookup_nil, Option.getD_none, exceptOkBind,
      pyAdd, toIntLike, pySliceJ, JVal.falsy, exceptPureEq, hd2, Bool.false_eq_true, if_false,
      decide_True, eq_self_iff_true, if_true]

/-- Claim C8: the redirect-wrapper url carrying
`?q=https%3A%2F%2Fexample.com` resolves to `https://example.com`
(percent-decoded); a non-redirect url beginning with `/` is resolved
against the site origin; a command run whose resolved url is empty is
dropped (its raw url is empty, and such runs are skipped, while every
emitted link's resolved url is a non-empty string). -/
theorem C8_description_link_resolution :
    YouTubeParser.resolveUrlJ (JVal.str
        "https://www.youtube.com/redirect?event=video_description&redir_token=x&q=https%3A%2F%2Fexample.com") =
      Except.ok (JVal.str "https://example.com") ∧
    (∀ s : String, strContains s "/redirect?" = false →
        strContains s "youtube.com/redirect" = false → ['/'].isPrefixOf s.data = true →
        YouTubeParser.resolveUrlJ (JVal.str s) =
          Except.ok (JVal.str ("https://www.youtube.com" ++ s))) ∧
    (∀ (d : String) (rest : List JVal),
        YouTubeParser.runLoop (JVal.str d) (JVal.obj [] :: rest) =
          YouTubeParser.runLoop (JVal.str d) rest) ∧
    (∀ (descText : JVal) (runs : List JVal) (links : List YouTubeParser.YtLink),
        YouTubeParser.runLoop descText runs = Except.ok links →
        ∀ l ∈ links, ∃ s, l.url = JVal.str s ∧ s ≠ "") := by
  refine ⟨rfl, ?_, runLoop_drop_empty, runLoop_url_nonempty⟩
  intro s h1 h2 h3
  simp only [YouTubeParser.resolveUrlJ, pyIn, YouTubeParser.pyStartsWithSlash, exceptOkBind,
    h1, h2, h3, Bool.false_eq_true, if_false, eq_self_iff_true, if_true, exceptPureEq]

/-- Witness for C8: a protocol-relative watch path gains the origin, an
url-less run is dropped, and a concrete emitted link has a non-empty
string url. -/
theorem C8_witness :
    YouTubeParser.resolveUrlJ (JVal.str "/watch?v=abc") =
      Except.ok (JVal.str "https://www.youtube.com/watch?v=abc") ∧
    YouTubeParser.runLoop (JVal.str "desc") [JVal.obj []] = Except.ok [] ∧
    (∃ s, ({ text := JVal.str "https://x", url := JVal.str "https://x" } :
        YouTubeParser.YtLink).url = JVal.str s ∧ s ≠ "") :=
  ⟨C8_description_link_resolution.2.1 "/watch?v=abc" rfl rfl rfl,
   (C8_description_link_resolution.2.2.1 "desc" []).trans rfl,
   C8_description_link_resolution.2.2.2 (JVal.str "desc") [c8run]
     [{ text := JVal.str "https://x", url := JVal.str "https://x" }] rfl _
     (List.mem_singleton.mpr rfl)⟩

end WafBypassScraper
